import Mathlib

/-!
Shallow embedding of `src/app/page.tsx` (a browser wallet page): the
network guard, balance fetch/display pipeline, transaction validator,
transfer submission flow, wallet event handlers and history fetcher.

Numbers are modelled exactly: JavaScript `bigint` values become `Int`/`Nat`,
decimal strings are parsed and printed digit by digit.  External library
functions used by the page (`ethers.parseUnits`, `ethers.formatEther`,
`ethers.isAddress`, `BigInt(string)`, `parseInt`) are modelled from their
documented behaviour; each model carries a doc comment stating the
simplifications made.
-/

set_option maxRecDepth 4000

/-- Character for a decimal digit value (`0 ↦ '0'`, …, `9 ↦ '9'`). -/
def digitChar (n : Nat) : Char := Char.ofNat (48 + n)

/-- Fuelled digit emitter: pushes the decimal digits of `n` (most significant
first) in front of `acc`.  Any fuel of at least the digit count of `n` gives
the same result. -/
def natDecimalAux : Nat → Nat → List Char → List Char
  | 0, _, acc => acc
  | fuel + 1, n, acc =>
    if n = 0 then acc else natDecimalAux fuel (n / 10) (digitChar (n % 10) :: acc)

/-- Decimal digit list of `n`, with `0` rendered as `"0"`. -/
def natDigits (n : Nat) : List Char :=
  if n = 0 then ['0'] else natDecimalAux (n + 1) n []

/-- Decimal string of `n`. -/
def natDecimal (n : Nat) : String := ⟨natDigits n⟩

/-- Numeric value of a list of decimal digit characters (read left to right). -/
def valOfDigits (l : List Char) : Nat :=
  l.foldl (fun a c => 10 * a + (c.toNat - 48)) 0

/-- Left-pad a digit list with `'0'` up to length `n`. -/
def padLeftDigits (l : List Char) (n : Nat) : List Char :=
  List.replicate (n - l.length) '0' ++ l

/-- Model of the core of `ethers.parseUnits(s, decimals)` on the character
list of `s` (ethers v6 `FixedNumber.fromString`): an optional leading `'-'`,
then digits, an optional `'.'`, and further digits, with at least one digit in
total; the fractional part may not be longer than `decimals`; the resulting
smallest-unit integer must fit in a signed 512-bit range.  Any other shape
throws in ethers, modelled as `none`. -/
def parseUnitsCore (cs : List Char) (decimals : Nat) : Option Int :=
  let neg : Bool := decide (cs.head? = some '-')
  let cs2 := if neg then cs.tail else cs
  let whole := cs2.takeWhile (fun c => c != '.')
  let rest := cs2.dropWhile (fun c => c != '.')
  let frac := rest.tail
  if whole.all Char.isDigit && frac.all Char.isDigit
      && decide (0 < whole.length + frac.length) && decide (frac.length ≤ decimals) then
    let mag : Nat := valOfDigits whole * 10 ^ decimals
      + valOfDigits frac * 10 ^ (decimals - frac.length)
    let v : Int := if neg then -(mag : Int) else (mag : Int)
    if decide (v < -(2 ^ 511)) || decide (2 ^ 511 - 1 < v) then none else some v
  else none

/-- Model of `ethers.parseUnits(s, decimals)`; `ethers.parseUnits(s, "wei")`
is `parseUnits s 0` and `ethers.parseUnits(s, "ether")` is `parseUnits s 18`. -/
def parseUnits (s : String) (decimals : Nat) : Option Int :=
  parseUnitsCore s.data decimals

/-- Strip trailing `'0'` characters from a fractional digit list, keeping at
least one digit (as `ethers.formatUnits` does). -/
def trimFrac (l : List Char) : List Char :=
  let t := (l.reverse.dropWhile (fun c => c == '0')).reverse
  if t.isEmpty then ['0'] else t

/-- Model of `ethers.formatEther(v)` (`formatUnits` with 18 decimals): the
exact decimal string of `v / 10^18`, fractional part padded to 18 digits and
then stripped of trailing zeros, keeping at least one fractional digit. -/
def formatEther (v : Int) : String :=
  let n := v.natAbs
  let whole := natDigits (n / 10 ^ 18)
  let frac := trimFrac (padLeftDigits (natDigits (n % 10 ^ 18)) 18)
  ⟨(if v < 0 then ['-'] else []) ++ whole ++ '.' :: frac⟩

/-- Model of the balance display stored by `getBalance`:
`parseFloat(ethers.formatEther(balanceWei)).toFixed(4)`.  The
`parseFloat`/`toFixed(4)` composition is modelled as exact decimal rounding of
`balanceWei / 10^18` to 4 fractional digits, rounding half up; this agrees
with the IEEE-754 evaluation except when the binary rounding of `parseFloat`
crosses a `10^-4` rounding tie, which none of the inputs considered here do. -/
def displayBalance (balanceWei : Nat) : String :=
  let scaled := (balanceWei + 5 * 10 ^ 13) / 10 ^ 14
  ⟨natDigits (scaled / 10 ^ 4) ++ '.' :: padLeftDigits (natDigits (scaled % 10 ^ 4)) 4⟩

/-- Hexadecimal digit test. -/
def isHexDigit (c : Char) : Bool :=
  c.isDigit || ('a' ≤ c && c ≤ 'f') || ('A' ≤ c && c ≤ 'F')

/-- Upper-case hex letter test. -/
def isUpperHexLetter (c : Char) : Bool := 'A' ≤ c && c ≤ 'F'

/-- Lower-case hex letter test. -/
def isLowerHexLetter (c : Char) : Bool := 'a' ≤ c && c ≤ 'f'

/-- Model of `ethers.isAddress`: an optional `0x` followed by 40 hex digits.
ethers additionally accepts mixed-case bodies only when they match the
EIP-55 checksum (a keccak hash); the model keeps the checksum-free forms —
bodies whose letters are not mixed-case — and rejects mixed-case bodies. -/
def isAddress (s : String) : Bool :=
  let body : List Char :=
    match s.data with
    | '0' :: 'x' :: rest => rest
    | cs => cs
  body.length == 40 && body.all isHexDigit
    && !(body.any isUpperHexLetter && body.any isLowerHexLetter)

/-- `validateTransaction` from the page, as a pure function of the three
strings it reads (`recipientAddress`, `amount`, `balance`): returns the
boolean result together with the error string it stores via `setError`
(`""` when validation succeeds, since the function clears the error slot on
entry).  The `try`/`catch` around both `parseUnits` calls maps a parse
failure of either the amount or the balance to `"Invalid amount"`. -/
def validateTransaction (recipientAddress amount balance : String) : Bool × String :=
  if !(isAddress recipientAddress) then (false, "Invalid recipient address")
  else
    match parseUnits amount 0 with
    | none => (false, "Invalid amount")
    | some amountWei =>
      if amountWei ≤ 0 then (false, "Amount must be greater than 0")
      else
        match parseUnits balance 18 with
        | none => (false, "Invalid amount")
        | some balanceWei =>
          if amountWei > balanceWei then (false, "Insufficient balance")
          else (true, "")

/-- `nativeCurrency` field of the chain configuration. -/
structure NativeCurrency where
  name : String
  symbol : String
  decimals : Nat
deriving DecidableEq

/-- Shape of the `OPBNB_TESTNET_CONFIG` constant. -/
structure ChainConfig where
  chainId : String
  chainName : String
  nativeCurrency : NativeCurrency
  rpcUrls : List String
  blockExplorerUrls : List String
deriving DecidableEq

/-- The `OPBNB_TESTNET_CONFIG` constant from the page; the RPC URL embeds the
`NEXT_PUBLIC_RPC_URL` environment value, passed here as `rpcKey`. -/
def OPBNB_TESTNET_CONFIG (rpcKey : String) : ChainConfig :=
  { chainId := "0x15eb"
    chainName := "opBNB Testnet"
    nativeCurrency := { name := "tBNB", symbol := "tBNB", decimals := 18 }
    rpcUrls := ["https://opbnb-testnet.infura.io/v3/" ++ rpcKey]
    blockExplorerUrls := ["https://testnet.opbnbscan.com/"] }

/-- Domain transaction record (the page's `Transaction` interface): `value`
is the `bigint` built from the raw explorer string, `timestamp` the
`parseInt` result (`none` models `NaN`). -/
structure Transaction where
  hash : String
  fromAddr : String
  toAddr : String
  value : Int
  timestamp : Option Int
deriving DecidableEq

/-- Raw explorer payload record (the page's `BSCTransaction` interface). -/
structure BSCTransaction where
  hash : String
  fromAddr : String
  toAddr : String
  value : String
  timeStamp : String
deriving DecidableEq

/-- The page's React state slots. -/
structure PageState where
  account : String
  connected : Bool
  error : String
  balance : String
  networkError : String
  recipientAddress : String
  amount : String
  isLoading : Bool
  txStatus : String
  txHash : String
  transactions : List Transaction
deriving DecidableEq

/-- Externally visible requests issued by the page to the wallet provider,
the signer and the RPC/polling layer. -/
inductive Effect where
  | switchChain (chainId : String)
  | addChain (cfg : ChainConfig)
  | signerSendTx (toAddr : String) (value : Int)
  | txWait
  | refreshBalance (address : String)
deriving DecidableEq

/-- Outcome of the `wallet_switchEthereumChain` request: success, or a
rejection carrying the provider error `code`. -/
inductive SwitchResult where
  | ok
  | err (code : Int)
deriving DecidableEq

/-- Outcome of the `wallet_addEthereumChain` fallback request. -/
inductive AddResult where
  | ok
  | err
deriving DecidableEq

/-- `checkAndSwitchNetwork` from the page.  `hasProvider` models the
`window.ethereum` presence test; `sw` and `add` are the provider's responses
to the switch and (if reached) add requests.  Returns the new state and the
provider requests issued, in order. -/
def checkAndSwitchNetwork (st : PageState) (rpcKey : String) (hasProvider : Bool)
    (sw : SwitchResult) (add : AddResult) : PageState × List Effect :=
  if !hasProvider then (st, [])
  else
    let cfg := OPBNB_TESTNET_CONFIG rpcKey
    match sw with
    | .ok => ({ st with networkError := "" }, [.switchChain cfg.chainId])
    | .err code =>
      if code = 4902 then
        match add with
        | .ok => ({ st with networkError := "" },
                  [.switchChain cfg.chainId, .addChain cfg])
        | .err => ({ st with networkError :=
                       "Failed to switch to opBNB Testnet. Please switch manually." },
                   [.switchChain cfg.chainId, .addChain cfg])
      else
        ({ st with networkError :=
             "Failed to switch to opBNB Testnet. Please switch manually." },
         [.switchChain cfg.chainId])

/-- Environment outcome of one `getBalance` call. -/
inductive BalanceOutcome where
  | noProvider
  | wrongNetwork
  | ok (balanceWei : Nat)
  | queryFailed
deriving DecidableEq

/-- State effect of `getBalance(address)` from the page: early return without
a provider; a network-mismatch message on the wrong chain; on success the
4-decimal display of the fetched wei balance and a cleared network error; on
any query failure the sentinel balance `"Error"` (the exception is only
logged). -/
def getBalanceState (st : PageState) (address : String) (out : BalanceOutcome) : PageState :=
  match out with
  | .noProvider => st
  | .wrongNetwork => { st with networkError := "Please switch to opBNB Testnet" }
  | .ok balanceWei => { st with balance := displayBalance balanceWei, networkError := "" }
  | .queryFailed => { st with balance := "Error" }

/-- Environment outcome of one `sendTransaction` submission, after validation
passed: no provider; `getSigner` threw; `signer.sendTransaction` threw (user
rejection or node error); `transaction.wait` threw; or on-chain confirmation
with the transaction hash. -/
inductive SendOutcome where
  | noWallet
  | signerFailed (msg : Option String)
  | sendRejected (msg : Option String)
  | waitFailed (hash : String) (msg : Option String)
  | confirmed (hash : String)
deriving DecidableEq

/-- `sendTransaction` from the page as a state/effect function: validation
first (its error lands in the single error slot); on failure the handler
returns at once.  Otherwise the transfer payload is built from the current
inputs and driven through the signer; `bal` is the environment outcome of the
post-confirmation `getBalance(account)` refresh.  Intermediate `setTxStatus`
writes that are overwritten before the handler finishes are elided; the
returned state is the state after the handler (including the `finally`
`setIsLoading(false)`). -/
def sendTransaction (st : PageState) (out : SendOutcome) (bal : BalanceOutcome) :
    PageState × List Effect :=
  let v := validateTransaction st.recipientAddress st.amount st.balance
  let st1 := { st with error := v.2 }
  if v.1 = false then (st1, [])
  else
    let st2 := { st1 with isLoading := true, txStatus := "Initiating transaction...",
                          txHash := "" }
    let amountWei : Int := (parseUnits st.amount 0).getD 0
    match out with
    | .noWallet =>
        ({ st2 with error := "No wallet found!", txStatus := "Transaction failed!",
                    isLoading := false }, [])
    | .signerFailed msg =>
        ({ st2 with error := msg.getD "Transaction failed",
                    txStatus := "Transaction failed!", isLoading := false }, [])
    | .sendRejected msg =>
        ({ st2 with error := msg.getD "Transaction failed",
                    txStatus := "Transaction failed!", isLoading := false },
         [.signerSendTx st.recipientAddress amountWei])
    | .waitFailed hash msg =>
        ({ st2 with txHash := hash, error := msg.getD "Transaction failed",
                    txStatus := "Transaction failed!", isLoading := false },
         [.signerSendTx st.recipientAddress amountWei, .txWait])
    | .confirmed hash =>
        let st3 := { st2 with txStatus := "Transaction confirmed!", txHash := hash }
        let st4 := getBalanceState st3 st.account bal
        ({ st4 with amount := "", recipientAddress := "", isLoading := false },
         [.signerSendTx st.recipientAddress amountWei, .txWait,
          .refreshBalance st.account])

/-- `handleAccountsChanged` from the page: an empty account list resets to
disconnected, empty account and `"0"` balance; a non-empty list stores its
first address and refreshes the balance for it. -/
def handleAccountsChanged (st : PageState) (accounts : List String)
    (bal : BalanceOutcome) : PageState × List Effect :=
  match accounts with
  | [] => ({ st with account := "", connected := false, balance := "0" }, [])
  | a :: _ => (getBalanceState { st with account := a } a bal, [.refreshBalance a])

/-- Model of JavaScript `BigInt(s)` restricted to decimal integer strings: an
optional `'-'` followed by at least one digit; other shapes (which for the
explorer's decimal `value` strings mean a malformed payload) throw, modelled
as `none`.  Whitespace trimming, hex/octal/binary literal forms and the
empty string (which `BigInt` maps to `0`) are not modelled. -/
def jsBigInt (s : String) : Option Int :=
  let body : Bool × List Char :=
    match s.data with
    | '-' :: rest => (true, rest)
    | cs => (false, cs)
  if body.2.isEmpty || !body.2.all Char.isDigit then none
  else some (if body.1 then -(valOfDigits body.2 : Int) else (valOfDigits body.2 : Int))

/-- Model of JavaScript `parseInt(s)` restricted to leading decimal digits
with an optional sign; `none` models `NaN` (no leading digits).  Whitespace
trimming and the hex `0x` form are not modelled. -/
def jsParseInt (s : String) : Option Int :=
  let body : Bool × List Char :=
    match s.data with
    | '-' :: rest => (true, rest)
    | cs => (false, cs)
  let digits := body.2.takeWhile Char.isDigit
  if digits.isEmpty then none
  else some (if body.1 then -(valOfDigits digits : Int) else (valOfDigits digits : Int))

/-- Mapping of one raw explorer record into the domain `Transaction`, as done
inside `getLastTransactions`: `BigInt(tx.value)` (whose throw aborts the whole
mapping) and `parseInt(tx.timeStamp)`. -/
def buildRecord (tx : BSCTransaction) : Option Transaction :=
  (jsBigInt tx.value).map fun v =>
    { hash := tx.hash, fromAddr := tx.fromAddr, toAddr := tx.toAddr,
      value := v, timestamp := jsParseInt tx.timeStamp }

/-- All-or-nothing mapping of the raw explorer array through `buildRecord`,
modelling that a `BigInt` throw inside `Array.map` aborts the whole mapping
before `setTransactions` runs. -/
def mapRecords : List BSCTransaction → Option (List Transaction)
  | [] => some []
  | tx :: rest =>
    match buildRecord tx, mapRecords rest with
    | some r, some rs => some (r :: rs)
    | _, _ => none

/-- Explorer response as seen by `getLastTransactions` after `response.json()`:
either a decoded object with a `status` string and a `result` field (`none`
when `result` is not an array), or a thrown fetch/decode failure. -/
inductive ApiResponse where
  | success (status : String) (result : Option (List BSCTransaction))
  | failure
deriving DecidableEq

/-- The explorer request URL built by `getLastTransactions`. -/
def historyRequestUrl (address apiKey : String) : String :=
  "https://api-testnet.bscscan.com/api?module=account&action=txlist&address="
    ++ address
    ++ "&startblock=0&endblock=99999999&page=1&offset=5&sort=desc&apikey="
    ++ apiKey

/-- `getLastTransactions` from the page as a state function: without an API
key, or on a thrown fetch, a non-`"1"` status, a non-array `result`, or a
`BigInt` throw while mapping, the state is left untouched (failures are only
logged); on success the mapped records replace the stored list wholesale. -/
def getLastTransactions (st : PageState) (hasApiKey : Bool) (resp : ApiResponse) :
    PageState :=
  if !hasApiKey then st
  else
    match resp with
    | .failure => st
    | .success status result =>
      match result with
      | none => st
      | some txs =>
        if status = "1" then
          match mapRecords txs with
          | some recs => { st with transactions := recs }
          | none => st
        else st

/-- A syntactically valid (all-lowercase) recipient address. -/
def addrA : String := "0xaaaaaaaaaaaaaaaaaaaaaaaaaaaaaaaaaaaaaaaa"

/-- A concrete connected page state used by witnesses: valid recipient,
amount `5` wei, displayed balance `"2.0"`. -/
def st0 : PageState :=
  { account := addrA, connected := true, error := "", balance := "2.0",
    networkError := "", recipientAddress := addrA, amount := "5",
    isLoading := false, txStatus := "", txHash := "", transactions := [] }

/-- The raw explorer payload record named by the round-trip property. -/
def rawTx3 : BSCTransaction :=
  { hash := "0xabc", fromAddr := "0x1", toAddr := "0x2",
    value := "1000000000000000000", timeStamp := "1700000000" }

theorem digitChar_val : ∀ m, m < 10 → (digitChar m).toNat - 48 = m := by decide

theorem digitChar_isDigit : ∀ m, m < 10 → (digitChar m).isDigit = true := by decide

theorem foldl_digits_eq (l : List Char) (a : Nat) :
    l.foldl (fun b c => 10 * b + (c.toNat - 48)) a
      = a * 10 ^ l.length + l.foldl (fun b c => 10 * b + (c.toNat - 48)) 0 := by
  induction l generalizing a with
  | nil => simp
  | cons c t ih =>
    simp only [List.foldl_cons, List.length_cons]
    rw [ih (10 * a + (c.toNat - 48)), ih (10 * 0 + (c.toNat - 48))]
    ring

theorem valOfDigits_append (l r : List Char) :
    valOfDigits (l ++ r) = valOfDigits l * 10 ^ r.length + valOfDigits r := by
  unfold valOfDigits
  rw [List.foldl_append, foldl_digits_eq]

theorem natDecimalAux_append (fuel : Nat) : ∀ (n : Nat) (acc : List Char),
    natDecimalAux fuel n acc = natDecimalAux fuel n [] ++ acc := by
  induction fuel with
  | zero => intro n acc; simp [natDecimalAux]
  | succ fuel ih =>
    intro n acc
    by_cases h : n = 0
    · simp [natDecimalAux, h]
    · simp only [natDecimalAux, if_neg h]
      rw [ih (n / 10) (digitChar (n % 10) :: acc), ih (n / 10) [digitChar (n % 10)],
        List.append_assoc]
      simp

theorem natDecimalAux_irrel : ∀ (fuel fuel' n : Nat) (acc : List Char),
    n < 10 ^ fuel → n < 10 ^ fuel' →
    natDecimalAux fuel n acc = natDecimalAux fuel' n acc := by
  intro fuel
  induction fuel with
  | zero =>
    intro fuel' n acc h1 _
    have hn : n = 0 := by simpa using h1
    subst hn
    cases fuel' <;> simp [natDecimalAux]
  | succ fuel ih =>
    intro fuel' n acc h1 h2
    by_cases hn : n = 0
    · subst hn; cases fuel' <;> simp [natDecimalAux]
    · cases fuel' with
      | zero => exact absurd (by simpa using h2) hn
      | succ f2 =>
        simp only [natDecimalAux, if_neg hn]
        exact ih f2 (n / 10) _
          ((Nat.div_lt_iff_lt_mul (by norm_num)).2 (by rw [← pow_succ]; exact h1))
          ((Nat.div_lt_iff_lt_mul (by norm_num)).2 (by rw [← pow_succ]; exact h2))

theorem natDecimalAux_val : ∀ (fuel n : Nat), n < 10 ^ fuel →
    valOfDigits (natDecimalAux fuel n []) = n := by
  intro fuel
  induction fuel with
  | zero =>
    intro n h
    have hn : n = 0 := by simpa using h
    subst hn
    simp [natDecimalAux, valOfDigits]
  | succ fuel ih =>
    intro n h
    by_cases hn : n = 0
    · subst hn; simp [natDecimalAux, valOfDigits]
    · simp only [natDecimalAux, if_neg hn]
      rw [natDecimalAux_append, valOfDigits_append,
        ih (n / 10) ((Nat.div_lt_iff_lt_mul (by norm_num)).2 (by rw [← pow_succ]; exact h))]
      have hd : valOfDigits [digitChar (n % 10)] = n % 10 := by
        unfold valOfDigits
        simp only [List.foldl_cons, List.foldl_nil]
        rw [Nat.mul_zero, Nat.zero_add, digitChar_val (n % 10) (Nat.mod_lt n (by norm_num))]
      rw [hd]
      simp only [List.length_cons, List.length_nil]
      omega

theorem natDecimalAux_mem : ∀ (fuel n : Nat) (acc : List Char) (c : Char),
    c ∈ natDecimalAux fuel n acc → c ∈ acc ∨ ∃ m, m < 10 ∧ c = digitChar m := by
  intro fuel
  induction fuel with
  | zero => intro n acc c h; exact Or.inl (by simpa [natDecimalAux] using h)
  | succ fuel ih =>
    intro n acc c h
    by_cases hn : n = 0
    · exact Or.inl (by simpa [natDecimalAux, hn] using h)
    · simp only [natDecimalAux, if_neg hn] at h
      rcases ih (n / 10) _ c h with h' | h'
      · rcases List.mem_cons.1 h' with rfl | h''
        · exact Or.inr ⟨n % 10, Nat.mod_lt n (by norm_num), rfl⟩
        · exact Or.inl h''
      · exact Or.inr h'

theorem natDecimalAux_len : ∀ (fuel n : Nat), (natDecimalAux fuel n []).length ≤ fuel := by
  intro fuel
  induction fuel with
  | zero => intro n; simp [natDecimalAux]
  | succ fuel ih =>
    intro n
    by_cases hn : n = 0
    · simp [natDecimalAux, hn]
    · simp only [natDecimalAux, if_neg hn]
      rw [natDecimalAux_append]
      simp only [List.length_append, List.length_cons, List.length_nil]
      have := ih (n / 10)
      omega

theorem natDigits_ne_nil (n : Nat) : natDigits n ≠ [] := by
  unfold natDigits
  by_cases hn : n = 0
  · simp [hn]
  · simp only [if_neg hn, natDecimalAux, if_neg hn]
    rw [natDecimalAux_append]
    simp

theorem natDigits_digit (n : Nat) : ∀ c ∈ natDigits n, c.isDigit = true := by
  intro c hc
  unfold natDigits at hc
  by_cases hn : n = 0
  · rw [if_pos hn] at hc
    simp only [List.mem_singleton] at hc
    subst hc
    decide
  · rw [if_neg hn] at hc
    rcases natDecimalAux_mem (n + 1) n [] c hc with h | ⟨m, hm, rfl⟩
    · simp at h
    · exact digitChar_isDigit m hm

theorem natDigits_val (n : Nat) : valOfDigits (natDigits n) = n := by
  unfold natDigits
  by_cases hn : n = 0
  · rw [if_pos hn, hn]; decide
  · rw [if_neg hn]
    exact natDecimalAux_val (n + 1) n
      (lt_of_lt_of_le (Nat.lt_pow_self (by norm_num) n)
        (Nat.pow_le_pow_right (by norm_num) (Nat.le_succ n)))

theorem natDigits_len_le (k n : Nat) (hk : 0 < k) (h : n < 10 ^ k) :
    (natDigits n).length ≤ k := by
  unfold natDigits
  by_cases hn : n = 0
  · rw [if_pos hn]; simpa using hk
  · rw [if_neg hn]
    rw [natDecimalAux_irrel (n + 1) k n []
      (lt_of_lt_of_le (Nat.lt_pow_self (by norm_num) n)
        (Nat.pow_le_pow_right (by norm_num) (Nat.le_succ n))) h]
    exact natDecimalAux_len k n

theorem valOfDigits_replicate_zero (k : Nat) : valOfDigits (List.replicate k '0') = 0 := by
  induction k with
  | zero => rfl
  | succ k ih =>
    unfold valOfDigits at ih ⊢
    simp only [List.replicate_succ, List.foldl_cons]
    have h0 : 10 * 0 + ('0'.toNat - 48) = 0 := by decide
    rw [h0]
    exact ih

theorem padLeftDigits_len (l : List Char) (n : Nat) (h : l.length ≤ n) :
    (padLeftDigits l n).length = n := by
  simp [padLeftDigits]
  omega

theorem padLeftDigits_val (l : List Char) (n : Nat) :
    valOfDigits (padLeftDigits l n) = valOfDigits l := by
  unfold padLeftDigits
  rw [valOfDigits_append, valOfDigits_replicate_zero]
  simp

theorem padLeftDigits_digit (l : List Char) (n : Nat) (h : ∀ c ∈ l, c.isDigit = true) :
    ∀ c ∈ padLeftDigits l n, c.isDigit = true := by
  intro c hc
  unfold padLeftDigits at hc
  rcases List.mem_append.1 hc with h' | h'
  · rw [List.eq_of_mem_replicate h']; decide
  · exact h c h'

theorem isDigit_bne_dot (c : Char) (h : c.isDigit = true) : (c != '.') = true := by
  rw [bne_iff_ne]
  intro hc
  subst hc
  exact absurd h (by decide)

theorem isDigit_ne_dash (c : Char) (h : c.isDigit = true) : c ≠ '-' := by
  intro hc
  subst hc
  exact absurd h (by decide)

theorem takeWhile_dropWhile_dot (l r : List Char) (h : ∀ c ∈ l, (c != '.') = true) :
    (l ++ '.' :: r).takeWhile (fun c => c != '.') = l
    ∧ (l ++ '.' :: r).dropWhile (fun c => c != '.') = '.' :: r := by
  induction l with
  | nil => constructor <;> simp [List.takeWhile_cons, List.dropWhile_cons]
  | cons c t ih =>
    have hc := h c (List.mem_cons_self _ _)
    have iht := ih fun c' hc' => h c' (List.mem_cons_of_mem _ hc')
    constructor
    · simp [List.takeWhile_cons, hc, iht.1]
    · simp [List.dropWhile_cons, hc, iht.2]

theorem parseUnitsCore_digits (wch fch : List Char) (d : Nat)
    (hw : ∀ c ∈ wch, c.isDigit = true) (hf : ∀ c ∈ fch, c.isDigit = true)
    (hne : wch ≠ []) (hlen : fch.length ≤ d)
    (hmag : valOfDigits wch * 10 ^ d + valOfDigits fch * 10 ^ (d - fch.length) < 2 ^ 511) :
    parseUnitsCore (wch ++ '.' :: fch) d
      = some ((valOfDigits wch * 10 ^ d + valOfDigits fch * 10 ^ (d - fch.length) : Nat) : Int) := by
  obtain ⟨c, t, rfl⟩ := List.exists_cons_of_ne_nil hne
  have hcd : c.isDigit = true := hw c (List.mem_cons_self _ _)
  have hcne : c ≠ '-' := isDigit_ne_dash c hcd
  have hneg : decide (((c :: t) ++ '.' :: fch).head? = some '-') = false := by
    simp [hcne]
  have htd := takeWhile_dropWhile_dot (c :: t) fch
    (fun c' hc' => isDigit_bne_dot c' (hw c' hc'))
  have hwall : ((c :: t).all Char.isDigit) = true := List.all_eq_true.2 hw
  have hfall : (fch.all Char.isDigit) = true := List.all_eq_true.2 hf
  unfold parseUnitsCore
  simp only [hneg, Bool.false_eq_true, if_false, htd.1, htd.2, List.tail_cons,
    hwall, hfall, Bool.true_and]
  have hpos : decide (0 < (c :: t).length + fch.length) = true := by
    simp
  have hlen' : decide (fch.length ≤ d) = true := decide_eq_true hlen
  rw [hpos, hlen']
  simp only [Bool.and_self, if_true]
  set mag : Nat := valOfDigits (c :: t) * 10 ^ d + valOfDigits fch * 10 ^ (d - fch.length)
    with hmagdef
  have hv1 : decide ((mag : Int) < -(2 ^ 511)) = false := by
    apply decide_eq_false
    have h0 : (0 : Int) ≤ (mag : Int) := Int.natCast_nonneg mag
    have hB : (0 : Int) < 2 ^ 511 := by positivity
    omega
  have hv2 : decide ((2 ^ 511 - 1 : Int) < (mag : Int)) = false := by
    apply decide_eq_false
    have : (mag : Int) < ((2 ^ 511 : Nat) : Int) := by exact_mod_cast hmag
    push_cast at this
    omega
  rw [hv1, hv2]
  simp

theorem displayBalance_data (w : Nat) :
    (displayBalance w).data
      = natDigits ((w + 5 * 10 ^ 13) / 10 ^ 14 / 10 ^ 4) ++ '.' ::
        padLeftDigits (natDigits ((w + 5 * 10 ^ 13) / 10 ^ 14 % 10 ^ 4)) 4 := rfl


/-- C2 (amended): the balance value that `validateTransaction` compares the
amount against — `parseUnits` of the stored 4-decimal display — is not the
fetched smallest-unit balance but that balance rounded to `10^14`-wei
granularity, because the balance crosses the floating-point display boundary
between fetch and validation. -/
theorem C2_balance_display_quantized (w : Nat) (hw : w < 10 ^ 30) :
    parseUnits (displayBalance w) 18
      = some (((w + 5 * 10 ^ 13) / 10 ^ 14 * 10 ^ 14 : Nat) : Int) := by
  have hsb : (w + 5 * 10 ^ 13) / 10 ^ 14 < 10 ^ 17 := by
    have hw' := hw
    norm_num at hw'
    apply (Nat.div_lt_iff_lt_mul (by norm_num : (0 : Nat) < 10 ^ 14)).2
    norm_num
    omega
  have hF : (w + 5 * 10 ^ 13) / 10 ^ 14 % 10 ^ 4 < 10 ^ 4 := Nat.mod_lt _ (by norm_num)
  have hle4 : (natDigits ((w + 5 * 10 ^ 13) / 10 ^ 14 % 10 ^ 4)).length ≤ 4 :=
    natDigits_len_le 4 _ (by norm_num) hF
  have hplen :
      (padLeftDigits (natDigits ((w + 5 * 10 ^ 13) / 10 ^ 14 % 10 ^ 4)) 4).length = 4 :=
    padLeftDigits_len _ _ hle4
  have hmagb : valOfDigits (natDigits ((w + 5 * 10 ^ 13) / 10 ^ 14 / 10 ^ 4)) * 10 ^ 18
      + valOfDigits (padLeftDigits (natDigits ((w + 5 * 10 ^ 13) / 10 ^ 14 % 10 ^ 4)) 4)
        * 10 ^ (18 - (padLeftDigits (natDigits ((w + 5 * 10 ^ 13) / 10 ^ 14 % 10 ^ 4)) 4).length)
      < 2 ^ 511 := by
    have h1 : (w + 5 * 10 ^ 13) / 10 ^ 14 / 10 ^ 4 * 10 ^ 18 < 10 ^ 17 * 10 ^ 18 :=
      mul_lt_mul_of_pos_right (lt_of_le_of_lt (Nat.div_le_self _ _) hsb) (by norm_num)
    have h2 : (w + 5 * 10 ^ 13) / 10 ^ 14 % 10 ^ 4 * 10 ^ (18 - 4)
        < 10 ^ 4 * 10 ^ (18 - 4) :=
      mul_lt_mul_of_pos_right hF (by norm_num)
    rw [natDigits_val, padLeftDigits_val, natDigits_val, hplen]
    calc (w + 5 * 10 ^ 13) / 10 ^ 14 / 10 ^ 4 * 10 ^ 18
          + (w + 5 * 10 ^ 13) / 10 ^ 14 % 10 ^ 4 * 10 ^ (18 - 4)
        < 10 ^ 17 * 10 ^ 18 + 10 ^ 4 * 10 ^ (18 - 4) := Nat.add_lt_add h1 h2
      _ ≤ 2 ^ 511 := by norm_num
  unfold parseUnits
  rw [displayBalance_data, parseUnitsCore_digits _ _ 18 (natDigits_digit _)
    (padLeftDigits_digit _ _ (natDigits_digit _)) (natDigits_ne_nil _)
    (by rw [hplen]; norm_num) hmagb]
  rw [natDigits_val, padLeftDigits_val, natDigits_val, hplen]
  obtain ⟨A, hA⟩ : ∃ a, (w + 5 * 10 ^ 13) / 10 ^ 14 / 10 ^ 4 = a := ⟨_, rfl⟩
  obtain ⟨B, hB⟩ : ∃ b, (w + 5 * 10 ^ 13) / 10 ^ 14 % 10 ^ 4 = b := ⟨_, rfl⟩
  have hdm : 10 ^ 4 * A + B = (w + 5 * 10 ^ 13) / 10 ^ 14 := by
    rw [← hA, ← hB]; exact Nat.div_add_mod _ _
  rw [hA, hB, ← hdm]
  have key : A * 10 ^ 18 + B * 10 ^ (18 - 4) = (10 ^ 4 * A + B) * 10 ^ 14 := by
    have h144 : (18 - 4 : Nat) = 14 := rfl
    rw [h144]; ring
  rw [key]

/-- C2 counterexample: a true fetched balance of 1 wei is stored as the
rounded display `"0.0000"`; re-parsed inside `validateTransaction` it becomes
0 wei, not 1 wei, so a transfer of exactly the true balance is rejected as
`"Insufficient balance"` — the amount-versus-balance comparison is performed
via a value that passed through floating-point display rounding. -/
theorem C2_counterexample :
    displayBalance 1 = "0.0000"
  ∧ parseUnits (displayBalance 1) 18 = some 0
  ∧ (0 : Int) ≠ (1 : Int)
  ∧ validateTransaction addrA "1" (displayBalance 1) = (false, "Insufficient balance") := by
  decide

theorem C2_balance_display_quantized_witness :
    parseUnits (displayBalance 1) 18
      = some (((1 + 5 * 10 ^ 13) / 10 ^ 14 * 10 ^ 14 : Nat) : Int) :=
  C2_balance_display_quantized 1 (by norm_num)

/-- C1 (amended): `validateTransaction` checks in a fixed order — ill-formed
recipient first (`"Invalid recipient address"`), then amount parsing
(`"Invalid amount"`), then amount positivity (`"Amount must be greater than
0"`), then — provided the stored balance display string itself converts to
the smallest-unit scale — the balance comparison (`"Insufficient balance"`),
else success; a balance display that does not convert yields
`"Invalid amount"` because its parse shares the validator's guarded
`try`/`catch` with the amount parse. -/
theorem C1_validation_order (r a b : String) :
    (isAddress r = false →
      validateTransaction r a b = (false, "Invalid recipient address"))
  ∧ (isAddress r = true → parseUnits a 0 = none →
      validateTransaction r a b = (false, "Invalid amount"))
  ∧ (∀ v : Int, isAddress r = true → parseUnits a 0 = some v → v ≤ 0 →
      validateTransaction r a b = (false, "Amount must be greater than 0"))
  ∧ (∀ v : Int, isAddress r = true → parseUnits a 0 = some v → 0 < v →
      parseUnits b 18 = none →
      validateTransaction r a b = (false, "Invalid amount"))
  ∧ (∀ v bw : Int, isAddress r = true → parseUnits a 0 = some v → 0 < v →
      parseUnits b 18 = some bw → bw < v →
      validateTransaction r a b = (false, "Insufficient balance"))
  ∧ (∀ v bw : Int, isAddress r = true → parseUnits a 0 = some v → 0 < v →
      parseUnits b 18 = some bw → v ≤ bw →
      validateTransaction r a b = (true, "")) := by
  unfold validateTransaction
  refine ⟨?_, ?_, ?_, ?_, ?_, ?_⟩
  · intro h
    simp [h]
  · intro h ha
    simp [h, ha]
  · intro v h ha hv
    simp [h, ha, hv]
  · intro v h ha hv hb
    simp [h, ha, hb, show ¬ v ≤ 0 from not_le.2 hv]
  · intro v bw h ha hv hb hlt
    simp [h, ha, hb, show ¬ v ≤ 0 from not_le.2 hv, hlt]
  · intro v bw h ha hv hb hle
    simp [h, ha, hb, show ¬ v ≤ 0 from not_le.2 hv, show ¬ bw < v from not_lt.2 hle]

theorem C1_validation_order_witness :
    validateTransaction addrA "5" "2.0" = (true, "") :=
  (C1_validation_order addrA "5" "2.0").2.2.2.2.2 5 (2 * 10 ^ 18) (by decide) (by decide)
    (by decide) (by decide) (by decide)

/-- C1 counterexample: with a syntactically valid recipient and the positive
parsed amount 5 wei, but the unparseable balance display `"Error"`, the
validator returns `"Invalid amount"` — not success and not a balance
comparison outcome, contradicting the claim's case split, which covers every
balance display string but leaves validation succeeding whenever the
recipient is valid, the amount parses positive and no balance comparison
fires. -/
theorem C1_counterexample :
    isAddress addrA = true ∧ parseUnits "5" 0 = some 5 ∧ (0 : Int) < 5
  ∧ parseUnits "Error" 18 = none
  ∧ validateTransaction addrA "5" "Error" = (false, "Invalid amount") := by
  decide

/-- C10: whenever the stored balance display string does not parse — in
particular the query-failure sentinel `"Error"` — `validateTransaction`
returns the `"Invalid amount"` error even for a valid recipient and a
positive integer amount, because the balance conversion fails inside the same
guarded parse as the amount. -/
theorem C10_error_balance :
    parseUnits "Error" 18 = none
  ∧ (∀ (r a b : String) (v : Int), isAddress r = true → parseUnits a 0 = some v →
      0 < v → parseUnits b 18 = none →
      validateTransaction r a b = (false, "Invalid amount")) := by
  constructor
  · decide
  · intro r a b v h ha hv hb
    unfold validateTransaction
    simp [h, ha, hb, show ¬ v ≤ 0 from not_le.2 hv]

theorem C10_error_balance_witness :
    validateTransaction addrA "1" "Error" = (false, "Invalid amount") :=
  C10_error_balance.2 addrA "1" "Error" 1 (by decide) (by decide) (by decide)
    C10_error_balance.1

/-- C4: when validation fails, `sendTransaction` stops after storing the
validation error: no effect is issued (no provider request, no signer call,
no transfer payload reaches the wallet) and every other state slot —
including `txStatus`, `txHash` and `isLoading` — keeps its prior value, so
the transfer never advances past the validation phase. -/
theorem C4_validation_failure_stops (st : PageState) (out : SendOutcome)
    (bal : BalanceOutcome)
    (h : (validateTransaction st.recipientAddress st.amount st.balance).1 = false) :
    sendTransaction st out bal
      = ({ st with
            error := (validateTransaction st.recipientAddress st.amount st.balance).2 },
         []) := by
  simp [sendTransaction, h]

theorem C4_validation_failure_stops_witness :
    sendTransaction { st0 with recipientAddress := "bad" } .noWallet .noProvider
      = ({ st0 with recipientAddress := "bad", error := "Invalid recipient address" },
         []) := by
  have h := C4_validation_failure_stops { st0 with recipientAddress := "bad" }
    .noWallet .noProvider (by decide)
  rw [h]
  decide

/-- C7: after a transfer reaches confirmation, `sendTransaction` triggers a
balance refresh for the active account and clears both input fields; on every
failure outcome (no wallet, signer acquisition failure, send rejection, wait
failure) both input fields keep the values they had at submission. -/
theorem C7_confirmed_clears_inputs (st : PageState) (bal : BalanceOutcome)
    (hv : (validateTransaction st.recipientAddress st.amount st.balance).1 = true) :
    (∀ hash, (sendTransaction st (.confirmed hash) bal).1.amount = ""
      ∧ (sendTransaction st (.confirmed hash) bal).1.recipientAddress = ""
      ∧ Effect.refreshBalance st.account ∈ (sendTransaction st (.confirmed hash) bal).2)
  ∧ ((sendTransaction st .noWallet bal).1.amount = st.amount
      ∧ (sendTransaction st .noWallet bal).1.recipientAddress = st.recipientAddress)
  ∧ (∀ msg, (sendTransaction st (.signerFailed msg) bal).1.amount = st.amount
      ∧ (sendTransaction st (.signerFailed msg) bal).1.recipientAddress
          = st.recipientAddress)
  ∧ (∀ msg, (sendTransaction st (.sendRejected msg) bal).1.amount = st.amount
      ∧ (sendTransaction st (.sendRejected msg) bal).1.recipientAddress
          = st.recipientAddress)
  ∧ (∀ hash msg, (sendTransaction st (.waitFailed hash msg) bal).1.amount = st.amount
      ∧ (sendTransaction st (.waitFailed hash msg) bal).1.recipientAddress
          = st.recipientAddress) := by
  refine ⟨?_, ?_, ?_, ?_, ?_⟩
  · intro hash
    refine ⟨?_, ?_, ?_⟩ <;> cases bal <;> simp [sendTransaction, hv, getBalanceState]
  · simp [sendTransaction, hv]
  · intro msg; simp [sendTransaction, hv]
  · intro msg; simp [sendTransaction, hv]
  · intro hash msg; simp [sendTransaction, hv]

theorem C7_confirmed_clears_inputs_witness :
    (sendTransaction st0 (.confirmed "0xh") .noProvider).1.amount = "" :=
  ((C7_confirmed_clears_inputs st0 .noProvider (by decide)).1 "0xh").1

/-- C6: an empty `accountsChanged` delivery resets the session to
disconnected, empty account and balance `"0"`; a non-empty delivery stores
the first delivered address, triggers a balance refresh for it, and leaves
the connection state unchanged. -/
theorem C6_accounts_changed (st : PageState) (bal : BalanceOutcome) :
    handleAccountsChanged st [] bal
      = ({ st with account := "", connected := false, balance := "0" }, [])
  ∧ (∀ a rest, (handleAccountsChanged st (a :: rest) bal).1.account = a
      ∧ (handleAccountsChanged st (a :: rest) bal).1.connected = st.connected
      ∧ (handleAccountsChanged st (a :: rest) bal).2 = [Effect.refreshBalance a]) := by
  refine ⟨rfl, ?_⟩
  intro a rest
  refine ⟨?_, ?_, rfl⟩ <;> cases bal <;> simp [handleAccountsChanged, getBalanceState]

/-- C5: with a provider present, `checkAndSwitchNetwork` first issues a
switch request for the configured chain id `"0x15eb"`; the registration
fallback carrying the full `OPBNB_TESTNET_CONFIG` payload is issued exactly
when the switch is rejected with code 4902; any other rejection code leaves
only the recorded `"Failed to switch to opBNB Testnet. Please switch
manually."` message with no second request; both success paths clear the
recorded network error; at most one switch and one add request are ever
issued (no retry). -/
theorem C5_network_guard (st : PageState) (rpcKey : String) (sw : SwitchResult)
    (add : AddResult) :
    ((checkAndSwitchNetwork st rpcKey true sw add).2.head?
        = some (.switchChain "0x15eb"))
  ∧ (Effect.addChain (OPBNB_TESTNET_CONFIG rpcKey)
        ∈ (checkAndSwitchNetwork st rpcKey true sw add).2 ↔ sw = .err 4902)
  ∧ (sw = .ok → checkAndSwitchNetwork st rpcKey true sw add
        = ({ st with networkError := "" }, [.switchChain "0x15eb"]))
  ∧ (checkAndSwitchNetwork st rpcKey true (.err 4902) .ok
        = ({ st with networkError := "" },
           [.switchChain "0x15eb", .addChain (OPBNB_TESTNET_CONFIG rpcKey)]))
  ∧ (checkAndSwitchNetwork st rpcKey true (.err 4902) .err
        = ({ st with networkError :=
              "Failed to switch to opBNB Testnet. Please switch manually." },
           [.switchChain "0x15eb", .addChain (OPBNB_TESTNET_CONFIG rpcKey)]))
  ∧ (∀ code : Int, code ≠ 4902 →
      checkAndSwitchNetwork st rpcKey true (.err code) add
        = ({ st with networkError :=
              "Failed to switch to opBNB Testnet. Please switch manually." },
           [.switchChain "0x15eb"]))
  ∧ ((checkAndSwitchNetwork st rpcKey true sw add).2.countP
        (fun e => match e with | .switchChain _ => true | _ => false) = 1)
  ∧ ((checkAndSwitchNetwork st rpcKey true sw add).2.countP
        (fun e => match e with | .addChain _ => true | _ => false) ≤ 1) := by
  refine ⟨?_, ?_, ?_, ?_, ?_, ?_, ?_, ?_⟩
  · cases sw with
    | ok => simp [checkAndSwitchNetwork, OPBNB_TESTNET_CONFIG]
    | err code =>
      by_cases hc : code = 4902
      · subst hc; cases add <;> simp [checkAndSwitchNetwork, OPBNB_TESTNET_CONFIG]
      · simp [checkAndSwitchNetwork, OPBNB_TESTNET_CONFIG, hc]
  · cases sw with
    | ok => simp [checkAndSwitchNetwork, OPBNB_TESTNET_CONFIG]
    | err code =>
      by_cases hc : code = 4902
      · subst hc; cases add <;> simp [checkAndSwitchNetwork, OPBNB_TESTNET_CONFIG]
      · simp [checkAndSwitchNetwork, OPBNB_TESTNET_CONFIG, hc]
  · intro hsw; subst hsw; simp [checkAndSwitchNetwork, OPBNB_TESTNET_CONFIG]
  · simp [checkAndSwitchNetwork, OPBNB_TESTNET_CONFIG]
  · simp [checkAndSwitchNetwork, OPBNB_TESTNET_CONFIG]
  · intro code hc; simp [checkAndSwitchNetwork, OPBNB_TESTNET_CONFIG, hc]
  · cases sw with
    | ok => simp [checkAndSwitchNetwork, OPBNB_TESTNET_CONFIG]
    | err code =>
      by_cases hc : code = 4902
      · subst hc; cases add <;> simp [checkAndSwitchNetwork, OPBNB_TESTNET_CONFIG]
      · simp [checkAndSwitchNetwork, OPBNB_TESTNET_CONFIG, hc]
  · cases sw with
    | ok => simp [checkAndSwitchNetwork, OPBNB_TESTNET_CONFIG]
    | err code =>
      by_cases hc : code = 4902
      · subst hc; cases add <;> simp [checkAndSwitchNetwork, OPBNB_TESTNET_CONFIG]
      · simp [checkAndSwitchNetwork, OPBNB_TESTNET_CONFIG, hc]

theorem C5_network_guard_witness :
    checkAndSwitchNetwork st0 "key" true (.err 4001) .ok
      = ({ st0 with networkError :=
            "Failed to switch to opBNB Testnet. Please switch manually." },
         [.switchChain "0x15eb"]) :=
  (C5_network_guard st0 "key" (.err 4001) .ok).2.2.2.2.2.1 4001 (by decide)

/-- C8: when the history fetch fails — thrown fetch/decode, missing API key,
a status other than `"1"`, or a non-array `result` — the whole page state,
including the stored transaction list and the error slots, is left exactly
as it was (the failure is only logged). -/
theorem C8_fetch_failure_preserves (st : PageState) (hasApiKey : Bool)
    (status : String) (result : Option (List BSCTransaction)) :
    (status ≠ "1" ∨ result = none →
      getLastTransactions st hasApiKey (.success status result) = st)
  ∧ getLastTransactions st hasApiKey .failure = st
  ∧ getLastTransactions st false (.success status result) = st := by
  refine ⟨?_, ?_, ?_⟩
  · intro h
    rcases h with hs | hr
    · cases hasApiKey <;> cases result <;> simp [getLastTransactions, hs]
    · subst hr; cases hasApiKey <;> simp [getLastTransactions]
  · cases hasApiKey <;> simp [getLastTransactions]
  · simp [getLastTransactions]

theorem C8_fetch_failure_preserves_witness :
    getLastTransactions st0 true (.success "0" (some [rawTx3])) = st0 :=
  (C8_fetch_failure_preserves st0 true "0" (some [rawTx3])).1 (Or.inl (by decide))

/-- C9 counterexample: an accepted payload of six records is stored in full —
the resulting history has length 6, violating the claimed unconditional cap
of 5; the code relies on the remote service honoring `offset=5` and applies
no client-side truncation or sorting. -/
theorem C9_counterexample :
    (getLastTransactions st0 true
        (.success "1" (some (List.replicate 6 rawTx3)))).transactions.length = 6
  ∧ ¬ ((getLastTransactions st0 true
        (.success "1" (some (List.replicate 6 rawTx3)))).transactions.length ≤ 5) := by
  decide

/-- C9 (amended): on every accepted payload the mapped records replace the
stored history wholesale — the result is exactly the mapped payload,
independent of the prior list, with no merging; the 5-record cap and
most-recent-first order are requested from the remote service (`page=1`,
`offset=5`, `sort=desc` in the query) but not re-enforced client-side. -/
theorem C9_wholesale_replacement (st : PageState) (txs : List BSCTransaction)
    (recs : List Transaction) (h : mapRecords txs = some recs) :
    getLastTransactions st true (.success "1" (some txs))
      = { st with transactions := recs } := by
  simp [getLastTransactions, h]

theorem C9_wholesale_replacement_witness :
    getLastTransactions st0 true (.success "1" (some [rawTx3]))
      = { st0 with transactions :=
          [{ hash := "0xabc", fromAddr := "0x1", toAddr := "0x2",
             value := 1000000000000000000, timestamp := some 1700000000 }] } :=
  C9_wholesale_replacement st0 [rawTx3]
    [{ hash := "0xabc", fromAddr := "0x1", toAddr := "0x2",
       value := 1000000000000000000, timestamp := some 1700000000 }] (by decide)

/-- C3 counterexample: the record built from the named raw payload has the
claimed `value` and `timestamp`, but formatting that stored value back to its
display decimal — `ethers.formatEther`, as the history view does — yields
`"1.0"`, not the claimed `"1.0000"` (trailing zeros are trimmed). -/
theorem C3_counterexample :
    buildRecord rawTx3
      = some { hash := "0xabc", fromAddr := "0x1", toAddr := "0x2",
               value := 1000000000000000000, timestamp := some 1700000000 }
  ∧ formatEther 1000000000000000000 ≠ "1.0000" := by
  decide

/-- C3 (amended): a `Transaction` built from the raw payload
`{hash:"0xabc", from:"0x1", to:"0x2", value:"1000000000000000000",
timeStamp:"1700000000"}` has `value = 1000000000000000000` and
`timestamp = 1700000000`, and formatting that stored value back through
`ethers.formatEther` (18 decimals) yields `"1.0"`. -/
theorem C3_roundtrip_amended :
    buildRecord rawTx3
      = some { hash := "0xabc", fromAddr := "0x1", toAddr := "0x2",
               value := 1000000000000000000, timestamp := some 1700000000 }
  ∧ formatEther 1000000000000000000 = "1.0" := by
  decide
